import Mathlib

/-!
Verification of the frame-extraction and clip-recording pipeline of the
BeizosGal lip-reading web application.

Numbers that the TypeScript source handles as JS numbers are modelled as
rationals; machine events (seeked, recorder stop, recorder error, timer
expiry) are modelled as explicit steps on explicit state records.

Sources embedded here:
  - src/utils/videoUtils.ts  (recordCroppedVideo: scale factor, watchdog,
    cleanup, forceStop, onstop, onerror handlers)
  - src/utils/media.ts       (extractFramesFromVideo: sampling loop)
  - src/components/Cropper.tsx (handleConfirm: crop clamping)
-/

/-- CropArea record from src/types.ts, with JS numbers as rationals. -/
structure CropArea where
  x : ℚ
  y : ℚ
  width : ℚ
  height : ℚ
deriving DecidableEq, Repr

/-- JS Math.round, which rounds half up: round x = floor (x + 1/2). -/
def jsRound (q : ℚ) : ℤ := ⌊q + 1 / 2⌋

/-- JS Math.floor on a rational. -/
def jsFloor (q : ℚ) : ℤ := ⌊q⌋

/-- Maximum render dimension of recordCroppedVideo
(src/utils/videoUtils.ts line 22). -/
def MAX_DIMENSION : ℚ := 1920

/-- The scale-factor computation of recordCroppedVideo
(src/utils/videoUtils.ts lines 23 to 35), written as a function of the crop
dimensions, the default target factor and the maximum dimension:
start from targetFactor; if cropW * scale exceeds maxDim, replace scale by
maxDim / cropW; then, if cropH * scale exceeds maxDim, replace scale by
maxDim / cropH provided that value is smaller; finally take max 1 scale. -/
def computeUpscale (cropW cropH targetFactor maxDim : ℚ) : ℚ :=
  let s1 := if cropW * targetFactor > maxDim then maxDim / cropW else targetFactor
  let s2 := if cropH * s1 > maxDim then
      (if maxDim / cropH < s1 then maxDim / cropH else s1)
    else s1
  max 1 s2

/-- scaleFactor as recordCroppedVideo computes it: target factor 4,
maximum dimension 1920 (src/utils/videoUtils.ts lines 23 to 35). -/
def scaleFactor (crop : CropArea) : ℚ :=
  computeUpscale crop.width crop.height 4 MAX_DIMENSION

/-- Modelled from the spec: the computeUpscale algorithm exactly as the
words of section 4.1 describe it, without the redundant comparison guard
that the source carries on the height reduction. Used only to compare the
code against the spec wording. -/
def computeUpscaleSpec (cropW cropH targetFactor maxDim : ℚ) : ℚ :=
  let s1 := if cropW * targetFactor > maxDim then maxDim / cropW else targetFactor
  let s2 := if cropH * s1 > maxDim then maxDim / cropH else s1
  max 1 s2

/-- The canvas dimensions of recordCroppedVideo
(src/utils/videoUtils.ts lines 48 to 49). -/
def canvasWidth (crop : CropArea) : ℤ := jsFloor (crop.width * scaleFactor crop)

/-- Height counterpart of canvasWidth (src/utils/videoUtils.ts line 49). -/
def canvasHeight (crop : CropArea) : ℤ := jsFloor (crop.height * scaleFactor crop)

/-- The clamping portion of handleConfirm in src/components/Cropper.tsx
(lines 237 to 251), before rounding: inputs are the initial natural
coordinates natX, natY, natWidth, natHeight and the native video
dimensions. Clips x and y to at least 0, shrinks width and height at the
right and bottom edges, then clips width and height to at least 0. -/
def handleConfirmClampQ (natX natY natW natH videoW videoH : ℚ) : CropArea :=
  let x := max 0 natX
  let y := max 0 natY
  let w := if x + natW > videoW then videoW - x else natW
  let h := if y + natH > videoH then videoH - y else natH
  let w2 := max 0 w
  let h2 := max 0 h
  { x := x, y := y, width := w2, height := h2 }

/-- Integer crop produced by handleConfirm after Math.round
(src/components/Cropper.tsx lines 253 to 258). -/
structure IntCrop where
  x : ℤ
  y : ℤ
  width : ℤ
  height : ℤ
deriving DecidableEq, Repr

/-- The full handleConfirm clamping step including the final rounding
(src/components/Cropper.tsx lines 237 to 258). It always returns a crop:
the source calls onCropConfirm unconditionally and has no rejection path. -/
def handleConfirmClamp (natX natY natW natH videoW videoH : ℚ) : IntCrop :=
  let c := handleConfirmClampQ natX natY natW natH videoW videoH
  { x := jsRound c.x, y := jsRound c.y,
    width := jsRound c.width, height := jsRound c.height }

/-- Modelled from the spec: clampCrop of section 4.1, which clips and
shrinks like the code but rejects with a ValidationError when the resulting
width or height is not positive. Used only to compare the code against the
spec wording. -/
def clampCropSpec (crop : CropArea) (nativeW nativeH : ℚ) :
    Except String CropArea :=
  let x := max 0 crop.x
  let y := max 0 crop.y
  let w := if x + crop.width > nativeW then nativeW - x else crop.width
  let h := if y + crop.height > nativeH then nativeH - y else crop.height
  if w ≤ 0 ∨ h ≤ 0 then Except.error "ValidationError"
  else Except.ok { x := x, y := y, width := w, height := h }

/-- The INIT validation of recordCroppedVideo
(src/utils/videoUtils.ts lines 15 to 18): the only fail-fast check on the
arguments; it examines the crop dimensions and nothing else. Returns the
rejection message, or none when the call proceeds. -/
def initValidate (crop : CropArea) : Option String :=
  if crop.width ≤ 0 ∨ crop.height ≤ 0 then some "Invalid crop dimensions"
  else none

/-- The watchdog delay armed by recordCroppedVideo
(src/utils/videoUtils.ts lines 90 to 95): clip duration in milliseconds
plus a 5000 ms buffer. -/
def watchdogDelay (startTime endTime : ℚ) : ℚ :=
  (endTime - startTime) * 1000 + 5000

/-! ## extractFramesFromVideo (src/utils/media.ts) -/

/-- Frame budget MAX_FRAMES of src/utils/media.ts (line 8). -/
def MAX_FRAMES : ℕ := 90

/-- One iteration of the sampling loop: the seek target that was captured
and the progress value reported right after the capture. -/
structure SampleStep where
  timestamp : ℚ
  progress : ℚ
deriving DecidableEq, Repr

/-- The mutual recursion of captureFrame and the onseeked handler in
extractFramesFromVideo (src/utils/media.ts lines 87 to 110), under the
idealised event flow in which every issued seek eventually fires seeked:
captureFrame finishes when currentTime exceeds the range end or the frame
count reaches MAX_FRAMES; otherwise it seeks to currentTime, and the
onseeked handler captures a frame there, increments the count, advances
currentTime by the interval, reports progress frameCount / MAX_FRAMES and
re-enters captureFrame. -/
def captureLoop (endT interval : ℚ) (t : ℚ) (frameCount : ℕ) :
    List SampleStep :=
  if h : t > endT ∨ MAX_FRAMES ≤ frameCount then []
  else
    { timestamp := t,
      progress := ((frameCount : ℚ) + 1) / (MAX_FRAMES : ℚ) } ::
      captureLoop endT interval (t + interval) (frameCount + 1)
termination_by MAX_FRAMES - frameCount
decreasing_by push_neg at h; omega

/-- The observable run of extractFramesFromVideo: the captured frame
timestamps and the sequence of onProgress values, in order. -/
structure SampleRun where
  frames : List ℚ
  progressCalls : List ℚ
deriving DecidableEq, Repr

/-- extractFramesFromVideo (src/utils/media.ts lines 78 to 110) restricted
to its observable sampling behaviour: when the duration is not positive it
resolves at once with no frames and no progress call; otherwise it runs the
sampling loop from the range start and finally reports progress 1. -/
def extractFramesFromVideo (start endT : ℚ) : SampleRun :=
  if endT - start ≤ 0 then { frames := [], progressCalls := [] }
  else
    let interval := (endT - start) / (MAX_FRAMES : ℚ)
    let steps := captureLoop endT interval start 0
    { frames := steps.map SampleStep.timestamp,
      progressCalls := steps.map SampleStep.progress ++ [1] }

/-! ## Event-level view of the sampling loop (for the seek-wait claims) -/

/-- Mid-run state of the extractFramesFromVideo loop: the pending seek
target currentTime, the frames and progress calls emitted so far, and
whether the promise has settled. -/
structure SamplerState where
  currentTime : ℚ
  frameCount : ℕ
  frames : List ℚ
  progressCalls : List ℚ
  done : Bool
deriving DecidableEq, Repr

/-- Events the sampling loop can observe: the seeked confirmation from the
video element, or the expiry of a timer after the given number of
milliseconds. src/utils/media.ts registers an onseeked handler and no
timer whatsoever, so timer events have no handler there. -/
inductive SamplerEv
  | seeked
  | timerFired (ms : ℚ)
deriving DecidableEq, Repr

/-- The captureFrame tail of the loop (src/utils/media.ts lines 87 to 96):
either finish, reporting progress 1, or leave the next seek pending. -/
def captureFrameStep (endT : ℚ) (s : SamplerState) : SamplerState :=
  if s.currentTime > endT ∨ MAX_FRAMES ≤ s.frameCount then
    { s with done := true, progressCalls := s.progressCalls ++ [1] }
  else s

/-- The event step of the extractFramesFromVideo loop
(src/utils/media.ts lines 87 to 110). Only the seeked event advances the
loop: it captures the frame at the pending target, increments the frame
count, advances the target by the interval, reports progress and re-enters
captureFrame. A timer event changes nothing because the source installs no
timer callback in this loop. -/
def samplerStep (endT interval : ℚ) (s : SamplerState) :
    SamplerEv → SamplerState
  | SamplerEv.seeked =>
    if s.done then s
    else
      captureFrameStep endT
        { s with
          frames := s.frames ++ [s.currentTime],
          frameCount := s.frameCount + 1,
          currentTime := s.currentTime + interval,
          progressCalls := s.progressCalls ++
            [((s.frameCount : ℚ) + 1) / (MAX_FRAMES : ℚ)] }
  | SamplerEv.timerFired _ => s

/-! ## recordCroppedVideo terminal handling (src/utils/videoUtils.ts) -/

/-- The state of the MediaRecorder as the source reads it. -/
inductive RecorderState
  | inactive
  | recording
  | stopped
deriving DecidableEq, Repr

instance {α β : Type} [DecidableEq α] [DecidableEq β] :
    DecidableEq (Except α β) := fun a b =>
  match a, b with
  | Except.ok x, Except.ok y => decidable_of_iff (x = y) (by simp)
  | Except.error x, Except.error y => decidable_of_iff (x = y) (by simp)
  | Except.ok _, Except.error _ => isFalse (by simp)
  | Except.error _, Except.ok _ => isFalse (by simp)

/-- State of one recordCroppedVideo invocation after INIT: the isFinished
flag, the recorder state, the sizes of the data chunks collected so far,
the mute flag of the source element together with its pre-call value, the
number of mute restorations performed, whether the watchdog timer is still
armed, and the settled outcome of the promise (none while pending; the
error carries the rejection message, the success the total byte count). -/
structure RecState where
  isFinished : Bool
  recState : RecorderState
  chunks : List ℕ
  sourceMuted : Bool
  originalMuted : Bool
  muteRestores : ℕ
  watchdogArmed : Bool
  outcome : Option (Except String ℕ)
deriving DecidableEq, Repr

/-- Promise semantics: the first resolve or reject wins, later ones are
ignored. -/
def settle (s : RecState) (r : Except String ℕ) : RecState :=
  if s.outcome = none then { s with outcome := some r } else s

/-- Total size of the blob assembled from the collected chunks
(src/utils/videoUtils.ts line 129). -/
def blobSize (s : RecState) : ℕ := s.chunks.foldl (· + ·) 0

/-- cleanup (src/utils/videoUtils.ts lines 99 to 107): disarm the
watchdog, set isFinished, and schedule the restoration of the original
mute flag (modelled as performed, counted in muteRestores). cleanup itself
carries no guard against running twice. -/
def cleanup (s : RecState) : RecState :=
  { s with
    watchdogArmed := false,
    isFinished := true,
    sourceMuted := s.originalMuted,
    muteRestores := s.muteRestores + 1 }

/-- ondataavailable (src/utils/videoUtils.ts lines 121 to 125): chunks of
positive size are collected, empty ones dropped. -/
def ondataavailable (size : ℕ) (s : RecState) : RecState :=
  if 0 < size then { s with chunks := s.chunks ++ [size] } else s

/-- The onstop handler (src/utils/videoUtils.ts lines 127 to 136): run
cleanup unless it already ran, build the blob from the chunks, reject with
the empty-output message on zero size and resolve with the bytes
otherwise. -/
def onstop (s : RecState) : RecState :=
  let s1 := if s.isFinished = false then cleanup s else s
  if blobSize s1 = 0 then
    settle s1 (Except.error "Recording failed: Output file is empty")
  else settle s1 (Except.ok (blobSize s1))

/-- The onerror handler (src/utils/videoUtils.ts lines 138 to 141): calls
cleanup unconditionally, then rejects. -/
def onerror (msg : String) (s : RecState) : RecState :=
  settle (cleanup s) (Except.error ("Recorder error: " ++ msg))

/-- The catch block of the capture loop
(src/utils/videoUtils.ts lines 244 to 248): cleanup then reject. -/
def loopCatch (msg : String) (s : RecState) : RecState :=
  settle (cleanup s) (Except.error msg)

/-- forceStop (src/utils/videoUtils.ts lines 109 to 119): a no-op once
finished; otherwise cleanup, then stop the recorder when it is recording
(its stop event then runs onstop) and reject with the given reason when it
is not. -/
def forceStop (reason : String) (s : RecState) : RecState :=
  if s.isFinished then s
  else
    let s1 := cleanup s
    if s1.recState = RecorderState.recording then
      onstop { s1 with recState := RecorderState.stopped }
    else settle s1 (Except.error reason)

/-- The watchdog callback (src/utils/videoUtils.ts lines 91 to 94): when
the timer is still armed it forces a stop with reason Timeout exceeded. -/
def watchdogFire (s : RecState) : RecState :=
  if s.watchdogArmed then forceStop "Timeout exceeded" s else s

/-- The natural stop path: the frame loop reaches the range end and calls
recorder.stop (src/utils/videoUtils.ts lines 211 to 215), whose stop event
runs onstop. -/
def naturalStop (s : RecState) : RecState :=
  if s.recState = RecorderState.recording then
    onstop { s with recState := RecorderState.stopped }
  else s

/-- The state of a recording that passed INIT, seeked, and started both
playback and the recorder, with the watchdog armed and no bytes yet. -/
def startedState (origMuted : Bool) : RecState :=
  { isFinished := false,
    recState := RecorderState.recording,
    chunks := [],
    sourceMuted := true,
    originalMuted := origMuted,
    muteRestores := 0,
    watchdogArmed := true,
    outcome := none }

/-! ## Helper lemmas -/

lemma div_lt_of_mul_gt {h s m : ℚ} (hh : 0 < h) (hgt : h * s > m) :
    m / h < s := by
  rw [div_lt_iff hh]
  nlinarith

lemma computeUpscale_bounds (w h : ℚ) (hw : 0 < w) (hh : 0 < h)
    (hw19 : w ≤ 1920) (hh19 : h ≤ 1920) :
    w * computeUpscale w h 4 1920 ≤ 1920 ∧
    h * computeUpscale w h 4 1920 ≤ 1920 := by
  have h1920 : (0 : ℚ) < 1920 := by norm_num
  simp only [computeUpscale]
  by_cases hA : w * 4 > 1920
  · by_cases hB : h * (1920 / w) > 1920
    · have hguard : 1920 / h < 1920 / w := div_lt_of_mul_gt hh hB
      rw [if_pos hA, if_pos hB, if_pos hguard]
      have hs2 : (1 : ℚ) ≤ 1920 / h := (one_le_div hh).mpr hh19
      rw [max_eq_right hs2]
      have hwh : w < h := by
        rw [← mul_div_assoc, gt_iff_lt, lt_div_iff hw] at hB
        nlinarith
      constructor
      · rw [← mul_div_assoc, div_le_iff hh]
        nlinarith
      · have : h * (1920 / h) = 1920 := by field_simp
        rw [this]
    · rw [if_pos hA, if_neg hB]
      have hs1 : (1 : ℚ) ≤ 1920 / w := (one_le_div hw).mpr hw19
      rw [max_eq_right hs1]
      constructor
      · have : w * (1920 / w) = 1920 := by field_simp
        rw [this]
      · push_neg at hB
        exact hB
  · by_cases hB : h * 4 > 1920
    · have hguard : 1920 / h < 4 := div_lt_of_mul_gt hh hB
      rw [if_neg hA, if_pos hB, if_pos hguard]
      have hs2 : (1 : ℚ) ≤ 1920 / h := (one_le_div hh).mpr hh19
      rw [max_eq_right hs2]
      push_neg at hA
      have hwh : w < h := by nlinarith
      constructor
      · rw [← mul_div_assoc, div_le_iff hh]
        nlinarith
      · have : h * (1920 / h) = 1920 := by field_simp
        rw [this]
    · rw [if_neg hA, if_neg hB]
      push_neg at hA hB
      have hmax : max (1 : ℚ) 4 = 4 := by norm_num
      rw [hmax]
      exact ⟨hA, hB⟩

/-! ## Claims -/

/-- C8 The upscale computation follows the section 4.1 algorithm: for every
positive crop height the code computation agrees with the spec wording of
computeUpscale, and the two quoted values hold: computeUpscale 1000 1000 at
target 4 and maximum 1920 is 1.92, and computeUpscale 500 500 4 1920 is
3.84. -/
theorem c8_computeUpscale_follows_spec :
    (∀ cropW cropH targetFactor maxDim : ℚ, 0 < cropH →
      computeUpscale cropW cropH targetFactor maxDim =
        computeUpscaleSpec cropW cropH targetFactor maxDim) ∧
    computeUpscale 1000 1000 4 1920 = 1.92 ∧
    computeUpscale 500 500 4 1920 = 3.84 := by
  refine ⟨?_, by norm_num [computeUpscale], by norm_num [computeUpscale]⟩
  intro w h t m hh
  simp only [computeUpscale, computeUpscaleSpec]
  by_cases hB : h * (if w * t > m then m / w else t) > m
  · rw [if_pos hB, if_pos hB, if_pos (div_lt_of_mul_gt hh hB)]
  · rw [if_neg hB, if_neg hB]

/-- Witness for c8_computeUpscale_follows_spec: the agreement instantiated
at a concrete positive crop height, together with the first quoted value. -/
theorem c8_witness :
    (0 : ℚ) < 5 ∧
    computeUpscale 3 5 4 1920 = computeUpscaleSpec 3 5 4 1920 ∧
    computeUpscale 1000 1000 4 1920 = 1.92 :=
  ⟨by norm_num, c8_computeUpscale_follows_spec.1 3 5 4 1920 (by norm_num),
    c8_computeUpscale_follows_spec.2.1⟩

/-- C3 counterexample: for the crop 2000 by 2000 the computed scale factor
is 1 (the minimum-scale clamp), and the rendered width 2000 * 1 exceeds the
maximum dimension 1920 — the claimed bound crop.width * scale ≤ 1920 fails
for crops wider than 1920. -/
theorem c3_counterexample :
    scaleFactor { x := 0, y := 0, width := 2000, height := 2000 } = 1 ∧
    (2000 : ℚ) *
      scaleFactor { x := 0, y := 0, width := 2000, height := 2000 } > 1920 := by
  constructor
  · norm_num [scaleFactor, computeUpscale, MAX_DIMENSION]
  · norm_num [scaleFactor, computeUpscale, MAX_DIMENSION]

/-- C3 amended: for every crop with positive dimensions the scale factor
satisfies scale ≥ 1, and the rendered output is bounded by the maximum
dimension 1920 in both axes provided the crop itself does not already
exceed 1920 in either axis (for larger crops the minimum-scale clamp
max 1 scale overrides the bound). -/
theorem c3_scale_bound (crop : CropArea) (hw : 0 < crop.width)
    (hh : 0 < crop.height) :
    1 ≤ scaleFactor crop ∧
    (crop.width ≤ 1920 → crop.height ≤ 1920 →
      crop.width * scaleFactor crop ≤ 1920 ∧
      crop.height * scaleFactor crop ≤ 1920) := by
  constructor
  · simp only [scaleFactor, computeUpscale, MAX_DIMENSION]
    exact le_max_left 1 _
  · intro hw19 hh19
    have := computeUpscale_bounds crop.width crop.height hw hh hw19 hh19
    simpa [scaleFactor, MAX_DIMENSION] using this

/-- Witness for c3_scale_bound: instantiated at the crop 100 by 50. -/
theorem c3_witness :
    (0 : ℚ) < 100 ∧ (0 : ℚ) < 50 ∧
    1 ≤ scaleFactor { x := 0, y := 0, width := 100, height := 50 } ∧
    (100 : ℚ) * scaleFactor { x := 0, y := 0, width := 100, height := 50 } ≤
      1920 := by
  have h := c3_scale_bound { x := 0, y := 0, width := 100, height := 50 }
    (by norm_num) (by norm_num)
  exact ⟨by norm_num, by norm_num, h.1,
    (h.2 (by norm_num) (by norm_num)).1⟩

/-- C9 recordCroppedVideo performs no time-range validation: for every
pair of times, including endTime ≤ startTime, and every crop with positive
dimensions, the INIT validation passes (it inspects only the crop), and the
watchdog is armed for (endTime - startTime) * 1000 + 5000 ms. -/
theorem c9_no_time_validation (crop : CropArea) (startTime endTime : ℚ)
    (hw : 0 < crop.width) (hh : 0 < crop.height) :
    initValidate crop = none ∧
    watchdogDelay startTime endTime = (endTime - startTime) * 1000 + 5000 := by
  refine ⟨?_, rfl⟩
  rw [initValidate, if_neg]
  push_neg
  exact ⟨hw, hh⟩

/-- Witness for c9_no_time_validation: a concrete inverted range, with
endTime 3 below startTime 5, still passes INIT and arms the watchdog for
(3 - 5) * 1000 + 5000 ms. -/
theorem c9_witness :
    initValidate { x := 0, y := 0, width := 10, height := 10 } = none ∧
    watchdogDelay 5 3 = ((3 : ℚ) - 5) * 1000 + 5000 :=
  c9_no_time_validation { x := 0, y := 0, width := 10, height := 10 } 5 3
    (by norm_num) (by norm_num)

/-- C5 counterexample: for a crop whose region lies beyond the right edge
of the video, the handleConfirm step of the Cropper returns the crop with
width clamped to 0 instead of rejecting, while the spec clampCrop rejects
with a ValidationError on the same input. -/
theorem c5_counterexample :
    handleConfirmClamp 200 0 50 100 100 100 =
      { x := 200, y := 0, width := 0, height := 100 } ∧
    clampCropSpec { x := 200, y := 0, width := 50, height := 100 } 100 100 =
      Except.error "ValidationError" := by
  constructor
  · norm_num [handleConfirmClamp, handleConfirmClampQ, jsRound]
  · norm_num [clampCropSpec]

/-- C5 amended: the handleConfirm clamping clips x and y to at least 0 and
shrinks width and height so that, before rounding, the crop does not reach
past the native dimensions (unless x or y itself already does), but it
never rejects: width and height are clamped to at least 0 and the crop is
always forwarded; the ValidationError on non-positive dimensions is raised
only later, by recordCroppedVideo. -/
theorem c5_clamp (natX natY natW natH videoW videoH : ℚ) :
    0 ≤ (handleConfirmClampQ natX natY natW natH videoW videoH).x ∧
    0 ≤ (handleConfirmClampQ natX natY natW natH videoW videoH).y ∧
    0 ≤ (handleConfirmClampQ natX natY natW natH videoW videoH).width ∧
    0 ≤ (handleConfirmClampQ natX natY natW natH videoW videoH).height ∧
    (handleConfirmClampQ natX natY natW natH videoW videoH).x +
        (handleConfirmClampQ natX natY natW natH videoW videoH).width ≤
      max videoW (handleConfirmClampQ natX natY natW natH videoW videoH).x ∧
    (handleConfirmClampQ natX natY natW natH videoW videoH).y +
        (handleConfirmClampQ natX natY natW natH videoW videoH).height ≤
      max videoH (handleConfirmClampQ natX natY natW natH videoW videoH).y := by
  simp only [handleConfirmClampQ]
  refine ⟨le_max_left 0 natX, le_max_left 0 natY, le_max_left 0 _,
    le_max_left 0 _, ?_, ?_⟩
  · by_cases hsh : max 0 natX + natW > videoW
    · rw [if_pos hsh]
      rcases le_total (videoW - max 0 natX) 0 with hle | hle
      · rw [max_eq_left hle]
        simpa using le_max_right videoW (max 0 natX)
      · rw [max_eq_right hle]
        have heq : max 0 natX + (videoW - max 0 natX) = videoW := by ring
        rw [heq]
        exact le_max_left _ _
    · rw [if_neg hsh]
      push_neg at hsh
      rcases le_total natW 0 with hle | hle
      · rw [max_eq_left hle]
        simpa using le_max_right videoW (max 0 natX)
      · rw [max_eq_right hle]
        exact le_trans hsh (le_max_left _ _)
  · by_cases hsh : max 0 natY + natH > videoH
    · rw [if_pos hsh]
      rcases le_total (videoH - max 0 natY) 0 with hle | hle
      · rw [max_eq_left hle]
        simpa using le_max_right videoH (max 0 natY)
      · rw [max_eq_right hle]
        have heq : max 0 natY + (videoH - max 0 natY) = videoH := by ring
        rw [heq]
        exact le_max_left _ _
    · rw [if_neg hsh]
      push_neg at hsh
      rcases le_total natH 0 with hle | hle
      · rw [max_eq_left hle]
        simpa using le_max_right videoH (max 0 natY)
      · rw [max_eq_right hle]
        exact le_trans hsh (le_max_left _ _)

/-- C7 For every range with end - start ≤ 0, extractFramesFromVideo
resolves with the empty frame sequence and performs no progress call. -/
theorem c7_empty_range (start endT : ℚ) (h : endT - start ≤ 0) :
    extractFramesFromVideo start endT =
      { frames := [], progressCalls := [] } := by
  simp only [extractFramesFromVideo, if_pos h]

/-- Witness for c7_empty_range: the degenerate range from 3 to 3. -/
theorem c7_witness :
    (3 : ℚ) - 3 ≤ 0 ∧
    extractFramesFromVideo 3 3 = { frames := [], progressCalls := [] } :=
  ⟨by norm_num, c7_empty_range 3 3 (by norm_num)⟩

lemma captureLoop_formula (endT interval start : ℚ) (hpos : 0 < interval)
    (hsum : start + (MAX_FRAMES : ℚ) * interval = endT) :
    ∀ k n : ℕ, n + k = MAX_FRAMES →
      captureLoop endT interval (start + (n : ℚ) * interval) n =
        (List.range k).map (fun i =>
          { timestamp := start + ((n : ℚ) + (i : ℚ)) * interval,
            progress := ((n : ℚ) + (i : ℚ) + 1) / (MAX_FRAMES : ℚ) }) := by
  intro k
  induction k with
  | zero =>
    intro n hn
    rw [captureLoop]
    rw [dif_pos (Or.inr (by omega))]
    simp
  | succ k ih =>
    intro n hn
    have hnlt : n < MAX_FRAMES := by omega
    have hle : start + (n : ℚ) * interval ≤ endT := by
      rw [← hsum]
      have hcast : (n : ℚ) ≤ (MAX_FRAMES : ℚ) := by
        exact_mod_cast Nat.le_of_lt hnlt
      nlinarith
    rw [captureLoop]
    rw [dif_neg (by push_neg; exact ⟨hle, hnlt⟩)]
    have harg : start + (n : ℚ) * interval + interval =
        start + ((n + 1 : ℕ) : ℚ) * interval := by push_cast; ring
    rw [harg, ih (n + 1) (by omega)]
    rw [List.range_succ_eq_map]
    simp only [List.map_cons, List.map_map]
    congr 1
    · simp
    · congr 1
      funext i
      simp only [Function.comp_apply]
      congr 1 <;> push_cast <;> ring

lemma captureLoop_start (start endT : ℚ) (h : start < endT) :
    captureLoop endT ((endT - start) / (MAX_FRAMES : ℚ)) start 0 =
      (List.range MAX_FRAMES).map (fun i =>
        { timestamp := start + (i : ℚ) * ((endT - start) / (MAX_FRAMES : ℚ)),
          progress := ((i : ℚ) + 1) / (MAX_FRAMES : ℚ) }) := by
  have hM : ((MAX_FRAMES : ℚ)) ≠ 0 := by norm_num [MAX_FRAMES]
  have hpos : 0 < (endT - start) / (MAX_FRAMES : ℚ) :=
    div_pos (by linarith) (by norm_num [MAX_FRAMES])
  have hsum :
      start + (MAX_FRAMES : ℚ) * ((endT - start) / (MAX_FRAMES : ℚ)) = endT := by
    field_simp
  have h0 := captureLoop_formula endT ((endT - start) / (MAX_FRAMES : ℚ)) start
    hpos hsum MAX_FRAMES 0 (by omega)
  simp only [Nat.cast_zero, zero_mul, add_zero, zero_add] at h0
  exact h0

/-- C4 For every range with start < end and the frame budget of 90, the
capture timestamps produced by extractFramesFromVideo equal
start + i * (end - start) / 90 for i in [0, 90), are strictly increasing,
and number exactly 90. -/
theorem c4_timestamps (start endT : ℚ) (h : start < endT) :
    (extractFramesFromVideo start endT).frames =
      (List.range MAX_FRAMES).map
        (fun i : ℕ => start + (i : ℚ) * ((endT - start) / (MAX_FRAMES : ℚ))) ∧
    (extractFramesFromVideo start endT).frames.length = MAX_FRAMES ∧
    (extractFramesFromVideo start endT).frames.Pairwise (· < ·) := by
  have hdur : ¬ (endT - start ≤ 0) := by linarith
  have hpos : 0 < (endT - start) / (MAX_FRAMES : ℚ) :=
    div_pos (by linarith) (by norm_num [MAX_FRAMES])
  have hloop := captureLoop_start start endT h
  have hframes : (extractFramesFromVideo start endT).frames =
      (List.range MAX_FRAMES).map
        (fun i : ℕ => start + (i : ℚ) * ((endT - start) / (MAX_FRAMES : ℚ))) := by
    simp only [extractFramesFromVideo, if_neg hdur]
    rw [hloop, List.map_map]
    rfl
  refine ⟨hframes, ?_, ?_⟩
  · rw [hframes, List.length_map, List.length_range]
  · rw [hframes]
    refine List.Pairwise.map _ ?_ (List.pairwise_lt_range MAX_FRAMES)
    intro a b hab
    have hc : (a : ℚ) < (b : ℚ) := by exact_mod_cast hab
    nlinarith

/-- C10 For every run of extractFramesFromVideo with end - start > 0, the
progress callback is invoked once after each captured frame with value
frameCount / 90 and once more with value 1 on completion; the final
reported progress is 1, and since exactly 90 frames are captured the value
1 is delivered exactly twice. -/
theorem c10_progress (start endT : ℚ) (h : 0 < endT - start) :
    (extractFramesFromVideo start endT).progressCalls =
      (List.range MAX_FRAMES).map
        (fun i : ℕ => ((i : ℚ) + 1) / (MAX_FRAMES : ℚ)) ++ [1] ∧
    (extractFramesFromVideo start endT).progressCalls.getLast? = some 1 ∧
    (extractFramesFromVideo start endT).progressCalls.count 1 = 2 := by
  have hdur : ¬ (endT - start ≤ 0) := by linarith
  have hloop := captureLoop_start start endT (by linarith)
  have hpc : (extractFramesFromVideo start endT).progressCalls =
      (List.range MAX_FRAMES).map
        (fun i : ℕ => ((i : ℚ) + 1) / (MAX_FRAMES : ℚ)) ++ [1] := by
    simp only [extractFramesFromVideo, if_neg hdur]
    rw [hloop, List.map_map]
    rfl
  refine ⟨hpc, ?_, ?_⟩
  · rw [hpc, List.getLast?_concat]
  · rw [hpc, List.count_append]
    have h89 : MAX_FRAMES = 89 + 1 := by norm_num [MAX_FRAMES]
    have hsplit : List.range MAX_FRAMES = List.range 89 ++ [89] := by
      rw [h89, List.range_succ]
    rw [hsplit, List.map_append, List.count_append]
    have hlast : (((89 : ℕ) : ℚ) + 1) / ((MAX_FRAMES : ℚ)) = 1 := by
      norm_num [MAX_FRAMES]
    have hzero :
        List.count (1 : ℚ)
          ((List.range 89).map
            (fun i : ℕ => ((i : ℚ) + 1) / (MAX_FRAMES : ℚ))) = 0 := by
      rw [List.count_eq_zero]
      simp only [List.mem_map, List.mem_range, not_exists]
      rintro i ⟨hi, heq⟩
      have hM : ((MAX_FRAMES : ℚ)) ≠ 0 := by norm_num [MAX_FRAMES]
      field_simp at heq
      have : (i : ℚ) = 89 := by norm_num [MAX_FRAMES] at heq; linarith
      have hi89 : i = 89 := by exact_mod_cast this
      omega
    rw [hzero]
    simp only [List.map_cons, List.map_nil]
    rw [hlast]
    simp

/-- Witness for c4_timestamps: the range from 0 to 3 yields exactly
MAX_FRAMES timestamps. -/
theorem c4_witness :
    (0 : ℚ) < 3 ∧ (extractFramesFromVideo 0 3).frames.length = MAX_FRAMES :=
  ⟨by norm_num, (c4_timestamps 0 3 (by norm_num)).2.1⟩

/-- Witness for c10_progress: the range from 0 to 3 delivers the progress
value 1 exactly twice. -/
theorem c10_witness :
    (0 : ℚ) < 3 - 0 ∧ (extractFramesFromVideo 0 3).progressCalls.count 1 = 2 :=
  ⟨by norm_num, (c10_progress 0 3 (by norm_num)).2.2⟩

/-- C1 counterexample: when the watchdog fires on a running recording that
produced no bytes, the rejection message is the empty-output error of the
onstop handler, not the timeout error — the claim that a no-bytes timeout
surfaces as TimeoutError fails for every recording that actually started. -/
theorem c1_counterexample :
    (watchdogFire (startedState false)).outcome =
      some (Except.error "Recording failed: Output file is empty") ∧
    "Recording failed: Output file is empty" ≠ "Timeout exceeded" := by
  exact ⟨rfl, by decide⟩

/-- C1 amended: the watchdog is armed for (end - start) * 1000 + 5000 ms
and, firing on any non-terminal state, forces termination: the outcome is
FAILED whenever no bytes were produced — surfaced as the empty-output
rejection when the recorder had started recording, and as the timeout
rejection only when it never started — and RESOLVED with exactly the
captured bytes otherwise. -/
theorem c1_watchdog (startTime endTime : ℚ) (s : RecState)
    (hfin : s.isFinished = false) (harm : s.watchdogArmed = true)
    (hout : s.outcome = none) :
    watchdogDelay startTime endTime = (endTime - startTime) * 1000 + 5000 ∧
    (watchdogFire s).isFinished = true ∧
    (s.recState = RecorderState.recording → blobSize s = 0 →
      (watchdogFire s).outcome =
        some (Except.error "Recording failed: Output file is empty")) ∧
    (s.recState = RecorderState.recording → 0 < blobSize s →
      (watchdogFire s).outcome = some (Except.ok (blobSize s))) ∧
    (s.recState = RecorderState.inactive →
      (watchdogFire s).outcome = some (Except.error "Timeout exceeded")) := by
  refine ⟨rfl, ?_, ?_, ?_, ?_⟩
  · simp only [watchdogFire, harm, if_true, forceStop, hfin, Bool.false_eq_true,
      if_false, cleanup, onstop, settle, blobSize]
    split_ifs <;> simp_all [settle, blobSize]
  · intro hrec hblob
    simp only [watchdogFire, harm, if_true, forceStop, hfin, Bool.false_eq_true,
      if_false, cleanup, hrec, onstop, settle, blobSize] at *
    split_ifs <;> simp_all [settle, blobSize, hout]
  · intro hrec hblob
    simp only [watchdogFire, harm, if_true, forceStop, hfin, Bool.false_eq_true,
      if_false, cleanup, hrec, onstop, settle, blobSize] at *
    split_ifs <;> simp_all [settle, blobSize, hout]
  · intro hrec
    simp only [watchdogFire, harm, if_true, forceStop, hfin, Bool.false_eq_true,
      if_false, cleanup, hrec, settle, hout]
    split_ifs <;> simp_all [settle, hout]

lemma settle_muteRestores (s : RecState) (r : Except String ℕ) :
    (settle s r).muteRestores = s.muteRestores := by
  simp only [settle]; split_ifs <;> rfl

lemma settle_sourceMuted (s : RecState) (r : Except String ℕ) :
    (settle s r).sourceMuted = s.sourceMuted := by
  simp only [settle]; split_ifs <;> rfl

lemma settle_isFinished (s : RecState) (r : Except String ℕ) :
    (settle s r).isFinished = s.isFinished := by
  simp only [settle]; split_ifs <;> rfl

lemma settle_watchdogArmed (s : RecState) (r : Except String ℕ) :
    (settle s r).watchdogArmed = s.watchdogArmed := by
  simp only [settle]; split_ifs <;> rfl

lemma onstop_muteRestores (s : RecState) :
    (onstop s).muteRestores =
      (if s.isFinished = false then s.muteRestores + 1 else s.muteRestores) := by
  simp only [onstop]
  split_ifs <;> simp_all [settle_muteRestores, cleanup]

lemma onstop_sourceMuted (s : RecState) :
    (onstop s).sourceMuted =
      (if s.isFinished = false then s.originalMuted else s.sourceMuted) := by
  simp only [onstop]
  split_ifs <;> simp_all [settle_sourceMuted, cleanup]

lemma onstop_isFinished (s : RecState) : (onstop s).isFinished = true := by
  simp only [onstop]
  split_ifs <;> simp_all [settle_isFinished, cleanup]

lemma watchdogFire_of_running (s : RecState) (hfin : s.isFinished = false)
    (harm : s.watchdogArmed = true)
    (hrec : s.recState = RecorderState.recording) :
    (watchdogFire s).muteRestores = s.muteRestores + 1 ∧
    (watchdogFire s).sourceMuted = s.originalMuted ∧
    (watchdogFire s).isFinished = true := by
  simp only [watchdogFire, harm, if_true, forceStop, hfin, Bool.false_eq_true,
    if_false, cleanup, hrec]
  refine ⟨?_, ?_, ?_⟩ <;>
    simp [onstop_muteRestores, onstop_sourceMuted, onstop_isFinished]

/-- C2 counterexample: the claimed exactly-once restoration fails when two
cleanup paths fire in sequence — cleanup carries no guard in the onerror
handler or in the capture-loop catch block, so a capture-loop exception
(for example a rejected play call) arriving after a watchdog-forced stop
runs cleanup a second time: the mute flag is restored twice, not once. -/
theorem c2_counterexample :
    (loopCatch "play failed" (watchdogFire (startedState true))).muteRestores
      = 2 ∧ (2 : ℕ) ≠ 1 := by
  constructor
  · rfl
  · decide

/-- C2 amended: for every invocation that passed INIT (source muted, no
restore performed yet), the pre-call muted flag of the source is restored
exactly once when a single path triggers cleanup — natural stop,
watchdog-forced stop, recorder error, or an exception in the capture
loop — whether the outcome is RESOLVED or FAILED, and the guarded late
events (the stop event after a forced stop or error, a later watchdog
expiry) do not restore it again; but cleanup is unguarded in the onerror
handler and the capture-loop catch block, so a loop exception arriving
after a watchdog-forced stop or after a recorder error restores a second
time. -/
theorem c2_mute_restored_once (s : RecState) (msg : String)
    (hfin : s.isFinished = false) (hres : s.muteRestores = 0)
    (harm : s.watchdogArmed = true)
    (hrec : s.recState = RecorderState.recording) :
    ((naturalStop s).muteRestores = 1 ∧
      (naturalStop s).sourceMuted = s.originalMuted) ∧
    ((watchdogFire s).muteRestores = 1 ∧
      (watchdogFire s).sourceMuted = s.originalMuted) ∧
    ((onerror msg s).muteRestores = 1 ∧
      (onerror msg s).sourceMuted = s.originalMuted) ∧
    ((loopCatch msg s).muteRestores = 1 ∧
      (loopCatch msg s).sourceMuted = s.originalMuted) ∧
    (onstop (watchdogFire s)).muteRestores = 1 ∧
    (watchdogFire (onerror msg s)).muteRestores = 1 ∧
    (onstop (onerror msg s)).muteRestores = 1 ∧
    (watchdogFire (loopCatch msg s)).muteRestores = 1 ∧
    (loopCatch msg (watchdogFire s)).muteRestores = 2 ∧
    (loopCatch msg (onerror msg s)).muteRestores = 2 := by
  have hW := watchdogFire_of_running s hfin harm hrec
  refine ⟨⟨?_, ?_⟩, ⟨hW.1.trans (by rw [hres]), hW.2.1⟩, ⟨?_, ?_⟩, ⟨?_, ?_⟩,
    ?_, ?_, ?_, ?_, ?_, ?_⟩
  · rw [naturalStop, if_pos hrec, onstop_muteRestores]
    simp [hfin, hres]
  · rw [naturalStop, if_pos hrec, onstop_sourceMuted]
    simp [hfin]
  · simp [onerror, settle_muteRestores, cleanup, hres]
  · simp [onerror, settle_sourceMuted, cleanup]
  · simp [loopCatch, settle_muteRestores, cleanup, hres]
  · simp [loopCatch, settle_sourceMuted, cleanup]
  · rw [onstop_muteRestores, hW.2.2]
    simp [hW.1, hres]
  · rw [watchdogFire]
    simp [onerror, settle_watchdogArmed, settle_muteRestores, cleanup, hres]
  · rw [onstop_muteRestores]
    simp [onerror, settle_isFinished, settle_muteRestores, cleanup, hres]
  · rw [watchdogFire]
    simp [loopCatch, settle_watchdogArmed, settle_muteRestores, cleanup, hres]
  · simp [loopCatch, settle_muteRestores, cleanup, hW.1, hres]
  · simp [loopCatch, onerror, settle_muteRestores, cleanup, hres]

/-- C6 counterexample: a sampling-loop state waiting on its first seek is
left unchanged by the expiry of a 2000 ms timer — extractFramesFromVideo
registers no seek-confirmation timeout, so a stalled seek is waited on
indefinitely, contradicting the claimed bounded wait. -/
theorem c6_counterexample :
    samplerStep 3 (1 / 30)
      { currentTime := 0, frameCount := 0, frames := [], progressCalls := [],
        done := false } (SamplerEv.timerFired 2000) =
      { currentTime := 0, frameCount := 0, frames := [], progressCalls := [],
        done := false } ∧
    ({ currentTime := 0, frameCount := 0, frames := [], progressCalls := [],
        done := false } : SamplerState).done = false :=
  ⟨rfl, rfl⟩

/-- C6 amended: the sampling loop of extractFramesFromVideo is strictly
sequential — only the seeked confirmation advances it, capturing exactly
one frame and issuing at most one further seek per event — but no timer
event of any duration (in particular none at 2000 ms) affects the loop:
the 2000 ms bounded seek wait exists only in recordCroppedVideo, not here. -/
theorem c6_seek_strictly_sequential (endT interval : ℚ) (s : SamplerState)
    (hdone : s.done = false) :
    (∀ t : ℚ, samplerStep endT interval s (SamplerEv.timerFired t) = s) ∧
    (samplerStep endT interval s SamplerEv.seeked).frames =
      s.frames ++ [s.currentTime] ∧
    (samplerStep endT interval s SamplerEv.seeked).frameCount =
      s.frameCount + 1 := by
  refine ⟨fun t => rfl, ?_, ?_⟩ <;>
    simp only [samplerStep, hdone, Bool.false_eq_true, if_false,
      captureFrameStep] <;>
    split_ifs <;> rfl

/-- Witness for c6_seek_strictly_sequential: a concrete waiting state is
unchanged by a 500 ms timer expiry. -/
theorem c6_witness :
    samplerStep 3 (1 / 30)
      { currentTime := 0, frameCount := 0, frames := [], progressCalls := [],
        done := false } (SamplerEv.timerFired 500) =
      { currentTime := 0, frameCount := 0, frames := [], progressCalls := [],
        done := false } :=
  (c6_seek_strictly_sequential 3 (1 / 30)
    { currentTime := 0, frameCount := 0, frames := [], progressCalls := [],
      done := false } rfl).1 500

/-- Witness for c1_watchdog: on a started recording with one 500-byte chunk
collected, the firing watchdog resolves with exactly those bytes. -/
theorem c1_witness :
    (ondataavailable 500 (startedState true)).isFinished = false ∧
    (watchdogFire (ondataavailable 500 (startedState true))).outcome =
      some (Except.ok (blobSize (ondataavailable 500 (startedState true)))) := by
  refine ⟨rfl, ?_⟩
  exact (c1_watchdog 0 2 (ondataavailable 500 (startedState true))
    rfl rfl rfl).2.2.2.1 rfl (by decide)

/-- Witness for c2_mute_restored_once: the watchdog-forced stop followed by
the late recorder stop event restores the mute flag exactly once. -/
theorem c2_witness :
    (onstop (watchdogFire (startedState true))).muteRestores = 1 :=
  (c2_mute_restored_once (startedState true) "err" rfl rfl rfl rfl).2.2.2.2.1
